import Mathlib

/-!
Verification development for the Telegram-Bot repository
(`telegram_utils/config.py`, `telegram_utils/main.py`, `telegram_bot.py`).

The Python code is shallowly embedded:
* a Python `dict[int, str]` (the recipient registry) is a `List (Int × String)`
  with unique keys kept in insertion order; `dict.update` / `dict.get`
  are embedded as `dictUpdate` / `dictLookup`;
* the pickled config file is embedded as `Option Blob`: `none` is a missing
  file (`FileNotFoundError` on open), `Blob.pickled` is the bytes of a
  successfully `pickle.dump`-ed dict with string keys (the only shape
  `write_config` ever produces), `Blob.unpicklingError` stands for bytes on
  which `pickle.load` raises `pickle.UnpicklingError`, and
  `Blob.otherError e` stands for bytes on which `pickle.load` raises an
  exception of another class `e` (the Python documentation for `pickle.load`
  states that exceptions other than `UnpicklingError` can be raised, e.g.
  `EOFError` on the empty byte string of a truncated file);
* exceptions are embedded as explicit result constructors.
-/

namespace TelegramBot

/-- A recipient registry: a Python `dict[int, str]` as an insertion-ordered
association list with unique keys. -/
abbrev Registry := List (Int × String)

/-- Python dict membership test (`k in d`). -/
def dictContains (r : Registry) (k : Int) : Bool :=
  r.any (fun p => p.1 = k)

/-- Python dict lookup (`d[k]` / `d.get(k)`), `none` when the key is absent. -/
def dictLookup : Registry → Int → Option String
  | [], _ => none
  | (k, v) :: rest, key => if k = key then some v else dictLookup rest key

/-- Setting one key of a Python dict (`d[k] = v`): an existing key keeps
its position and gets the new value, a fresh key is appended. -/
def dictSet : Registry → Int → String → Registry
  | [], k, v => [(k, v)]
  | (k1, v1) :: rest, k, v =>
    if k1 = k then (k, v) :: rest
    else (k1, v1) :: dictSet rest k v

/-- Python `d.update(m)`: sets every key/value pair of `m` in turn. -/
def dictUpdate (r : Registry) (m : List (Int × String)) : Registry :=
  m.foldl (fun acc p => dictSet acc p.1 p.2) r

/-- A Python value that can appear as a field of the pickled config dict:
`None`, a string (the token), or the `client_ids` dict. -/
inductive PyVal where
  | pyNone
  | pyStr (s : String)
  | pyDict (entries : Registry)
  deriving DecidableEq, Repr

/-- Python `dict.get(key)` on the pickled string-keyed config dict:
first matching key, `None` when absent. -/
def pyGet : List (String × PyVal) → String → PyVal
  | [], _ => .pyNone
  | (k, v) :: rest, key => if k = key then v else pyGet rest key

/-- Contents of the config file at the configured path, as seen by
`pickle.load` (see the module docstring for what each constructor stands
for). -/
inductive Blob where
  | pickled (entries : List (String × PyVal))
  | unpicklingError
  | otherError (excName : String)
  deriving DecidableEq, Repr

/-- The in-memory state of `Config`: `self.token` and `self.client_ids`
(`config.py` lines 28-32). -/
structure Config where
  token : Option String
  client_ids : Registry
  deriving DecidableEq, Repr

/-- Encoding of `self.token` (a string or `None`) as the pickled value. -/
def encodeToken : Option String → PyVal
  | none => .pyNone
  | some s => .pyStr s

/-- The value `Config.write_config` pickles:
`{"token": self.token, "client_ids": self.client_ids}` (`config.py`
lines 36-45). The write always succeeds in the model (the code retries
after creating the parent directory). -/
def write_config (cfg : Config) : Blob :=
  .pickled [("token", encodeToken cfg.token),
            ("client_ids", .pyDict cfg.client_ids)]

/-- Reading back the token field stored by `write_config`. -/
def decodeToken : PyVal → Option String
  | .pyStr s => some s
  | _ => none

/-- Reading back the `client_ids` field stored by `write_config`. -/
def decodeIds : PyVal → Registry
  | .pyDict d => d
  | _ => []

/-- Result of `Config.__init__` (`config.py` lines 12-34): the loaded
config, a raised `ConfigError`, or a propagated exception the
`except` clauses do not catch. -/
inductive LoadResult where
  | ok (cfg : Config)
  | configError (msg : String)
  | uncaught (excName : String)
  deriving DecidableEq, Repr

/-- `Config.__init__` on the file at the configured path:
missing file (`FileNotFoundError`) gives `token = None` and an empty
dict; a loaded dict is read with `config.get("token")` /
`config.get("client_ids")`; `pickle.UnpicklingError` is re-raised as
`ConfigError("Invalid configuration file!")`; any other exception from
`pickle.load` propagates uncaught (`config.py` lines 25-34). -/
def Config.load (file : Option Blob) : LoadResult :=
  match file with
  | none => .ok ⟨none, []⟩
  | some (.pickled entries) =>
      .ok ⟨decodeToken (pyGet entries "token"),
           decodeIds (pyGet entries "client_ids")⟩
  | some .unpicklingError => .configError "Invalid configuration file!"
  | some (.otherError e) => .uncaught e

/-- Python truthiness of `self.config.token` (`if not self.config.token`):
falsy when `None` or the empty string. -/
def tokenFalsy : Option String → Bool
  | none => true
  | some s => s == ""

/-- The first statement of `send_message` (`main.py` lines 130-131):
`if not client_ids: client_ids = self.config.client_ids`. A `None`
argument, and also an empty iterable argument (both falsy), are replaced
by the registry; iterating the registry dict yields its keys. -/
def effective_client_ids (cfg : Config) (arg : Option (List Int)) :
    List Int :=
  match arg with
  | none => cfg.client_ids.map Prod.fst
  | some l => if l.isEmpty then cfg.client_ids.map Prod.fst else l

/-- Recipient resolution as the claim words it: the explicit
recipient-ids argument when one is given, the full registry only when
none is given. Stated for comparison with `effective_client_ids`, the
resolution the code performs. -/
def claimed_effective_ids (cfg : Config) (arg : Option (List Int)) :
    List Int :=
  match arg with
  | none => cfg.client_ids.map Prod.fst
  | some l => l

/-- How a `send_message` call ends: normal return, one of the two guard
exceptions, or an exception raised by a transport send. -/
inductive SendStatus where
  | ok
  | noTokenError
  | noClientIdsError
  | transportError
  deriving DecidableEq, Repr

/-- Observable outcome of `send_message`: the transport calls made, as
(chat id, text) in order, and how the call ended. -/
structure SendOutcome where
  calls : List (Int × String)
  status : SendStatus
  deriving DecidableEq, Repr

/-- The broadcast loop of `send_message` (`main.py` lines 143-145):
`bot.send_message` per id in order; `fails id = true` means the transport
call for `id` raises. A raising call is still attempted (it appears in
`calls`), and the loop stops there. -/
def broadcast (fails : Int → Bool) (message : String) :
    List Int → SendOutcome
  | [] => ⟨[], .ok⟩
  | id :: rest =>
    if fails id then ⟨[(id, message)], .transportError⟩
    else
      let o := broadcast fails message rest
      ⟨(id, message) :: o.calls, o.status⟩

/-- `TelegramBot.send_message` (`main.py` lines 120-145, identical in
`telegram_bot.py` lines 183-208): resolve the recipient ids, raise
`NoTokenError` on a falsy token, raise `NoClientIdsError` on an empty
resolved id list, otherwise send to each id in order. -/
def send_message (cfg : Config) (fails : Int → Bool) (message : String)
    (arg : Option (List Int)) : SendOutcome :=
  let ids := effective_client_ids cfg arg
  if tokenFalsy cfg.token then ⟨[], .noTokenError⟩
  else if ids.isEmpty then ⟨[], .noClientIdsError⟩
  else broadcast fails message ids

/-- The fields of an inbound `telegram.message.Message` the code reads:
`message.text`, `message.chat.id`, `message.chat.full_name`. -/
structure Message where
  text : String
  chat_id : Int
  chat_full_name : String
  deriving DecidableEq, Repr

/-- A Python value a listen predicate can return, distinguished up to
identity (the code tests `res is False`, so the bool `False` is one
constructor and `None`, ints and strings are distinct from it even when
they are equal to `False` under `==`). -/
inductive PyValue where
  | pyBool (b : Bool)
  | pyNone
  | pyInt (n : Int)
  | pyStr (s : String)
  deriving DecidableEq, Repr

/-- The reply `handle_msg` sends to the inbound message:
`reply_text("Accepted.")`, `reply_text("Invalid!")`, or no reply at all. -/
inductive Reply where
  | accepted
  | invalid
  | noReply
  deriving DecidableEq, Repr

/-- The per-message handler registered by `get_message` in
`telegram_utils/main.py` (lines 76-85): run the predicate `f` on the
message; if the result `is False`, reply `"Invalid!"` and keep listening;
for any other result, reply `"Accepted."` and raise the `SIGTERM` that
terminates the session. Returns the reply and whether the session
terminates. -/
def handle_msg (f : Message → PyValue) (m : Message) : Reply × Bool :=
  if f m = .pyBool false then (.invalid, false)
  else (.accepted, true)

/-- The per-message handler registered by `get_message` in
`telegram_bot.py` (lines 137-148): identical to `handle_msg` except that
a message whose chat id is not in the registry is dropped first, with no
reply and no predicate call. -/
def handle_msg_bot (registry : Registry) (f : Message → PyValue)
    (m : Message) : Reply × Bool :=
  if !(dictContains registry m.chat_id) then (.noReply, false)
  else if f m = .pyBool false then (.invalid, false)
  else (.accepted, true)

/-- How the guard prologue of `get_message` ends: proceed to build the
listening wrapper, or raise. -/
inductive ListenGate where
  | proceed
  | noTokenError
  | noClientIdsError
  deriving DecidableEq, Repr

/-- The guard prologue of `get_message` in `telegram_utils/main.py`
(lines 68-70): `NoTokenError` when the token is falsy, otherwise the
decorator is returned and the session can open. -/
def get_message_gate (cfg : Config) : ListenGate :=
  if tokenFalsy cfg.token then .noTokenError else .proceed

/-- The guard prologue of `get_message` in `telegram_bot.py`
(lines 126-131): `NoTokenError` when the token is falsy, then
additionally `NoClientIdsError` when the registry is empty (falsy). -/
def get_message_gate_bot (cfg : Config) : ListenGate :=
  if tokenFalsy cfg.token then .noTokenError
  else if cfg.client_ids.isEmpty then .noClientIdsError
  else .proceed

/-- A bot together with the config file its `Config` writes to: the
in-memory state and the current file contents. -/
structure BotState where
  config : Config
  file : Option Blob
  deriving DecidableEq, Repr

/-- `TelegramBot.set_bot_token` (`main.py` lines 35-39):
`self.config.token = token or input(...)` — a falsy argument (`None` or
the empty string) is replaced by the operator's console line — then
`self.config.write_config()`. -/
def set_bot_token (s : BotState) (token : Option String)
    (inputLine : String) : BotState :=
  let t := match token with
    | none => inputLine
    | some tk => if tk == "" then inputLine else tk
  let cfg := { s.config with token := some t }
  { config := cfg, file := some (write_config cfg) }

/-- `TelegramBot.add_client` (`main.py` lines 41-50):
`self.config.client_ids.update(client)` then
`self.config.write_config()`. The truthy branch of
`telegram_bot.py`'s `add_client` (lines 95-108) runs the same two
statements. -/
def add_client (s : BotState) (client : List (Int × String)) : BotState :=
  let cfg := { s.config with
    client_ids := dictUpdate s.config.client_ids client }
  { config := cfg, file := some (write_config cfg) }

/-- One inbound message handled by `handle_passwd` inside
`register_client` (`main.py` lines 110-119): on a text equal to the
password, the sender's chat id and full name are put into the registry,
the config is written, and `True` is returned (the session then
terminates); otherwise `False` is returned and the state is untouched.
Returns the new state and the predicate result. -/
def register_step (password : String) (s : BotState) (m : Message) :
    BotState × Bool :=
  if m.text == password then
    let cfg := { s.config with
      client_ids := dictUpdate s.config.client_ids
        [(m.chat_id, m.chat_full_name)] }
    (({ config := cfg, file := some (write_config cfg) } : BotState), true)
  else (s, false)

/-- The password built by `register_client` (`main.py` lines 104-107):
`"".join([str(randint(0, 9)) for _ in range(8)])`, where `draws` gives
the eight values of `randint(0, 9)` drawn by this call. -/
def register_password (draws : Fin 8 → Fin 10) : String :=
  String.join ((List.finRange 8).map (fun i => toString (draws i).val))

end TelegramBot

namespace TelegramBot

/-- C2: Save-then-Load round trip. Writing any (token, registry) pair with
`write_config` and loading the resulting file with `Config.__init__`
returns exactly the pair written, for every token (present or absent) and
every registry (empty included). -/
theorem save_load_roundtrip (token : Option String) (client_ids : Registry) :
    Config.load (some (write_config ⟨token, client_ids⟩)) =
      .ok ⟨token, client_ids⟩ := by
  cases token <;> rfl

/-- C6: loading the config from a path with no file returns the absent
token and the empty registry, and is not an error result. -/
theorem load_missing_file :
    Config.load none = .ok ⟨none, []⟩ := rfl

/-- C7 counterexample: a present file whose bytes make `pickle.load` raise
an exception other than `pickle.UnpicklingError` — e.g. the empty byte
string, on which `pickle.load` raises `EOFError` — does not produce a
`ConfigError`: the exception escapes `Config.__init__` uncaught, because
only `pickle.UnpicklingError` is converted. -/
theorem load_other_error_not_config_error :
    Config.load (some (.otherError "EOFError")) = .uncaught "EOFError" ∧
      ∀ msg, Config.load (some (.otherError "EOFError")) ≠
        .configError msg := by
  exact ⟨rfl, fun msg h => by simp [Config.load] at h⟩

/-- C1 counterexample: with the token set, a non-empty registry and an
explicitly passed empty recipient list, the recipient set as the claim
defines it (the explicit argument) is empty, yet the call does not fail
with `NoClientIdsError`: the falsy empty argument is replaced by the
registry and the message is sent to registry key 1. -/
theorem send_message_empty_arg_counterexample :
    claimed_effective_ids ⟨some "t", [(1, "A")]⟩ (some []) = [] ∧
    tokenFalsy (some "t") = false ∧
    send_message ⟨some "t", [(1, "A")]⟩ (fun _ => false) "hi" (some []) =
      ⟨[(1, "hi")], .ok⟩ := by
  refine ⟨rfl, rfl, rfl⟩

/-- C1 amended: with the effective recipient set resolved the way the
code resolves it (the explicit argument when it is non-empty, the full
registry when the argument is absent or empty), every call with a falsy
token fails with `NoTokenError`, and every call with the token set but an
empty effective recipient set fails with `NoClientIdsError`; in both
cases no transport call is made. -/
theorem send_message_guard_errors (cfg : Config) (fails : Int → Bool)
    (msg : String) (arg : Option (List Int)) :
    (tokenFalsy cfg.token = true →
      send_message cfg fails msg arg = ⟨[], .noTokenError⟩) ∧
    (tokenFalsy cfg.token = false →
      effective_client_ids cfg arg = [] →
      send_message cfg fails msg arg = ⟨[], .noClientIdsError⟩) := by
  constructor
  · intro h
    simp [send_message, h]
  · intro h hids
    simp [send_message, h, hids]

/-- C1 witness: the no-token error at a concrete config with a non-empty
registry, and the no-recipients error at a concrete config with the token
set, an empty registry and no explicit argument. -/
theorem send_message_guard_errors_witness :
    (tokenFalsy (⟨none, [(1, "A")]⟩ : Config).token = true ∧
      send_message ⟨none, [(1, "A")]⟩ (fun _ => false) "hi" none =
        ⟨[], .noTokenError⟩) ∧
    (tokenFalsy (⟨some "t", []⟩ : Config).token = false ∧
      effective_client_ids ⟨some "t", []⟩ none = [] ∧
      send_message ⟨some "t", []⟩ (fun _ => false) "hi" none =
        ⟨[], .noClientIdsError⟩) := by
  refine ⟨⟨rfl, ?_⟩, rfl, rfl, ?_⟩
  · exact (send_message_guard_errors ⟨none, [(1, "A")]⟩ (fun _ => false)
      "hi" none).1 rfl
  · exact (send_message_guard_errors ⟨some "t", []⟩ (fun _ => false)
      "hi" none).2 rfl rfl

/-- The broadcast loop attempts every id before the first failing one,
attempts the failing one, and stops: no id after it is reached. -/
theorem broadcast_stops_at_failure (fails : Int → Bool) (msg : String)
    (pre : List Int) (bad : Int) (post : List Int)
    (hpre : ∀ i ∈ pre, fails i = false) (hbad : fails bad = true) :
    broadcast fails msg (pre ++ bad :: post) =
      ⟨(pre ++ [bad]).map (fun i => (i, msg)), .transportError⟩ := by
  induction pre with
  | nil => simp [broadcast, hbad]
  | cons hd tl ih =>
      have hhd : fails hd = false := hpre hd (List.mem_cons_self hd tl)
      have htl : ∀ i ∈ tl, fails i = false :=
        fun i hi => hpre i (List.mem_cons_of_mem hd hi)
      simp [broadcast, hhd, ih htl]

/-- C5: during a broadcast over an explicit recipient sequence, if every
send before `bad` succeeds and the send to `bad` raises, the exception
propagates (`transportError` status), the transport calls made are
exactly those for the recipients up to and including `bad`, and no
recipient after `bad` is attempted; the earlier calls stay made. -/
theorem send_message_aborts_on_failure (cfg : Config) (fails : Int → Bool)
    (msg : String) (pre : List Int) (bad : Int) (post : List Int)
    (htok : tokenFalsy cfg.token = false)
    (hpre : ∀ i ∈ pre, fails i = false) (hbad : fails bad = true) :
    send_message cfg fails msg (some (pre ++ bad :: post)) =
      ⟨(pre ++ [bad]).map (fun i => (i, msg)), .transportError⟩ := by
  have hne : (pre ++ bad :: post).isEmpty = false := by
    cases pre <;> rfl
  simp only [send_message, effective_client_ids, hne, htok,
    Bool.false_eq_true, if_false]
  exact broadcast_stops_at_failure fails msg pre bad post hpre hbad

/-- C5 witness: token set, recipients [1, 2, 3], the send to 2 raises:
the calls made are to 1 and 2 only and the failure propagates. -/
theorem send_message_aborts_on_failure_witness :
    tokenFalsy (⟨some "t", []⟩ : Config).token = false ∧
    (∀ i ∈ [(1 : Int)], (fun i => decide (i = (2 : Int))) i = false) ∧
    (fun i => decide (i = (2 : Int))) 2 = true ∧
    send_message ⟨some "t", []⟩ (fun i => decide (i = (2 : Int))) "hi"
        (some ([1] ++ 2 :: [3])) =
      ⟨([1, 2].map (fun i => (i, "hi"))), .transportError⟩ := by
  refine ⟨rfl, by decide, rfl, ?_⟩
  exact send_message_aborts_on_failure ⟨some "t", []⟩
    (fun i => decide (i = (2 : Int))) "hi" [1] 2 [3] rfl (by decide) rfl

/-- C7 amended: a present file is converted to
`ConfigError("Invalid configuration file!")` exactly when `pickle.load`
raises `pickle.UnpicklingError` on its bytes; a deserialization failure of
any other exception class propagates unchanged instead. -/
theorem load_error_classification :
    Config.load (some .unpicklingError) =
      .configError "Invalid configuration file!" ∧
    ∀ e, Config.load (some (.otherError e)) = .uncaught e := by
  exact ⟨rfl, fun e => rfl⟩

/-- Looking a key up after a Python dict assignment: the assigned key
maps to the new value, every other key is untouched. -/
theorem dictLookup_dictSet (r : Registry) (k : Int) (v : String)
    (k2 : Int) :
    dictLookup (dictSet r k v) k2 =
      if k2 = k then some v else dictLookup r k2 := by
  induction r with
  | nil =>
      by_cases h : k2 = k
      · subst h; simp [dictSet, dictLookup]
      · have h3 : ¬k = k2 := fun hh => h hh.symm
        simp [dictSet, dictLookup, h, h3]
  | cons hd tl ih =>
      obtain ⟨k1, v1⟩ := hd
      simp only [dictSet]
      by_cases h1 : k1 = k
      · subst h1
        by_cases h2 : k2 = k1
        · subst h2; simp [dictLookup]
        · have h3 : ¬k1 = k2 := fun hh => h2 hh.symm
          simp [dictLookup, h2, h3]
      · by_cases h2 : k2 = k1
        · subst h2
          have h3 : ¬k2 = k := h1
          simp [dictLookup, h3]
        · have h3 : ¬k1 = k2 := fun hh => h2 hh.symm
          simp [dictLookup, h1, h3, ih]

/-- C9: `add_client` merges with last-write-wins per key: the added key
maps to the new label, every other key keeps its binding, and the
concrete chain `{5: "Alice"}` then `{5: "Bob"}` from the empty registry
yields exactly `{5: "Bob"}`. -/
theorem add_client_last_write_wins :
    (∀ (s : BotState) (k : Int) (v : String),
      dictLookup (add_client s [(k, v)]).config.client_ids k = some v) ∧
    (∀ (s : BotState) (k : Int) (v : String) (k2 : Int), k2 ≠ k →
      dictLookup (add_client s [(k, v)]).config.client_ids k2 =
        dictLookup s.config.client_ids k2) ∧
    (add_client (add_client ⟨⟨none, []⟩, none⟩ [(5, "Alice")])
        [(5, "Bob")]).config.client_ids = [(5, "Bob")] := by
  refine ⟨?_, ?_, by decide⟩
  · intro s k v
    simp [add_client, dictUpdate, dictLookup_dictSet]
  · intro s k v k2 h
    simp [add_client, dictUpdate, dictLookup_dictSet, h]

/-- C9 witness: adding key 7 to a registry holding key 5 maps key 7 to
the new label and leaves key 5 bound to its old label. -/
theorem add_client_last_write_wins_witness :
    dictLookup (add_client ⟨⟨none, [(5, "Alice")]⟩, none⟩
        [(7, "Bob")]).config.client_ids 7 = some "Bob" ∧
    ((5 : Int) ≠ 7 ∧
      dictLookup (add_client ⟨⟨none, [(5, "Alice")]⟩, none⟩
          [(7, "Bob")]).config.client_ids 5 =
        dictLookup (⟨none, [(5, "Alice")]⟩ : Config).client_ids 5) := by
  refine ⟨add_client_last_write_wins.1 ⟨⟨none, [(5, "Alice")]⟩, none⟩
    7 "Bob", by decide, add_client_last_write_wins.2.1
      ⟨⟨none, [(5, "Alice")]⟩, none⟩ 7 "Bob" 5 (by decide)⟩

/-- C3: every mutation is persisted before the call returns: after
`set_bot_token` and after `add_client` the file holds exactly the
serialization of the new in-memory config, and whenever the registration
handler accepts a message (the only branch of the registration flow that
mutates state) the file likewise holds the serialization of the updated
config. -/
theorem mutations_persist (s : BotState) (token : Option String)
    (inputLine : String) (client : List (Int × String)) (pw : String)
    (m : Message) :
    ((set_bot_token s token inputLine).file =
      some (write_config (set_bot_token s token inputLine).config)) ∧
    ((add_client s client).file =
      some (write_config (add_client s client).config)) ∧
    ((register_step pw s m).2 = true →
      (register_step pw s m).1.file =
        some (write_config (register_step pw s m).1.config)) := by
  refine ⟨rfl, rfl, ?_⟩
  by_cases h : (m.text == pw) = true
  · simp [register_step, h]
  · simp [register_step, h]

/-- C3 witness: a registration handler accepting the matching password
"p" from chat 5 leaves the file holding the serialized updated config. -/
theorem mutations_persist_witness :
    (register_step "p" ⟨⟨none, []⟩, none⟩ ⟨"p", 5, "Alice"⟩).2 = true ∧
    (register_step "p" ⟨⟨none, []⟩, none⟩ ⟨"p", 5, "Alice"⟩).1.file =
      some (write_config
        (register_step "p" ⟨⟨none, []⟩, none⟩
          ⟨"p", 5, "Alice"⟩).1.config) :=
  ⟨by decide,
   (mutations_persist ⟨⟨none, []⟩, none⟩ none "x" [] "p"
     ⟨"p", 5, "Alice"⟩).2.2 (by decide)⟩

/-- C4 counterexample: with the token set and the registry empty, the
`get_message` of `telegram_bot.py` does not proceed to open a session —
it raises `NoClientIdsError`, a second precondition beyond the token. -/
theorem get_message_gate_bot_counterexample :
    get_message_gate_bot ⟨some "t", []⟩ = .noClientIdsError ∧
    get_message_gate_bot ⟨some "t", []⟩ ≠ .proceed := by
  exact ⟨rfl, by decide⟩

/-- C4 amended: the `telegram_utils/main.py` listen gate has exactly one
precondition — a falsy token raises `NoTokenError`, and with the token
set it proceeds whatever the registry is — while the `telegram_bot.py`
gate additionally requires a non-empty registry, raising
`NoClientIdsError` when the token is set but the registry is empty. -/
theorem listen_gate_preconditions (cfg : Config) :
    (tokenFalsy cfg.token = true →
      get_message_gate cfg = .noTokenError ∧
      get_message_gate_bot cfg = .noTokenError) ∧
    (tokenFalsy cfg.token = false → get_message_gate cfg = .proceed) ∧
    (tokenFalsy cfg.token = false → cfg.client_ids.isEmpty = true →
      get_message_gate_bot cfg = .noClientIdsError) ∧
    (tokenFalsy cfg.token = false → cfg.client_ids.isEmpty = false →
      get_message_gate_bot cfg = .proceed) := by
  refine ⟨fun h => ⟨?_, ?_⟩, fun h => ?_, fun h h2 => ?_, fun h h2 => ?_⟩
  all_goals simp [get_message_gate, get_message_gate_bot, *]

/-- C4 witness: the four gate outcomes at concrete configs — no token,
token with empty registry, token with a registered client. -/
theorem listen_gate_preconditions_witness :
    (get_message_gate ⟨none, [(1, "A")]⟩ = .noTokenError ∧
      get_message_gate_bot ⟨none, [(1, "A")]⟩ = .noTokenError) ∧
    get_message_gate ⟨some "t", []⟩ = .proceed ∧
    get_message_gate_bot ⟨some "t", []⟩ = .noClientIdsError ∧
    get_message_gate_bot ⟨some "t", [(1, "A")]⟩ = .proceed := by
  refine ⟨(listen_gate_preconditions ⟨none, [(1, "A")]⟩).1 rfl,
    (listen_gate_preconditions ⟨some "t", []⟩).2.1 rfl,
    (listen_gate_preconditions ⟨some "t", []⟩).2.2.1 rfl rfl,
    (listen_gate_preconditions ⟨some "t", [(1, "A")]⟩).2.2.2 rfl rfl⟩

/-- C10: the handler compares the predicate result to `False` by
identity: any result other than the object `False` — `None`, `0`, the
empty string, `True` — gets the `"Accepted."` reply and terminates the
session, and only the exact object `False` gets the `"Invalid!"` reply
and continued listening; in the `telegram_bot.py` variant the same holds
for every message whose chat id is in the registry. -/
theorem handle_msg_identity_test (f : Message → PyValue) (m : Message)
    (registry : Registry) :
    (f m ≠ .pyBool false → handle_msg f m = (.accepted, true)) ∧
    (f m = .pyBool false → handle_msg f m = (.invalid, false)) ∧
    (dictContains registry m.chat_id = true → f m ≠ .pyBool false →
      handle_msg_bot registry f m = (.accepted, true)) ∧
    (dictContains registry m.chat_id = true → f m = .pyBool false →
      handle_msg_bot registry f m = (.invalid, false)) := by
  refine ⟨fun h => ?_, fun h => ?_, fun hc h => ?_, fun hc h => ?_⟩
  all_goals simp [handle_msg, handle_msg_bot, *]

/-- C10 witness: predicates returning `None`, `0` and the empty string —
all distinct from the object `False` — are accepted and terminate the
session, while a predicate returning the object `False` is rejected with
continued listening. -/
theorem handle_msg_identity_test_witness :
    ((fun _ : Message => PyValue.pyNone) ⟨"x", 1, "A"⟩ ≠ .pyBool false ∧
      handle_msg (fun _ => PyValue.pyNone) ⟨"x", 1, "A"⟩ =
        (.accepted, true)) ∧
    (handle_msg (fun _ => PyValue.pyBool false) ⟨"x", 1, "A"⟩ =
      (.invalid, false)) ∧
    (dictContains [(1, "A")] (1 : Int) = true ∧
      handle_msg_bot [(1, "A")] (fun _ => PyValue.pyInt 0) ⟨"x", 1, "A"⟩ =
        (.accepted, true)) ∧
    (handle_msg_bot [(1, "A")] (fun _ => PyValue.pyStr "")
        ⟨"x", 1, "A"⟩ = (.accepted, true)) := by
  refine ⟨⟨by decide, ?_⟩, ?_, ⟨by decide, ?_⟩, ?_⟩
  · exact (handle_msg_identity_test (fun _ => PyValue.pyNone)
      ⟨"x", 1, "A"⟩ []).1 (by decide)
  · exact (handle_msg_identity_test (fun _ => PyValue.pyBool false)
      ⟨"x", 1, "A"⟩ []).2.1 rfl
  · exact (handle_msg_identity_test (fun _ => PyValue.pyInt 0)
      ⟨"x", 1, "A"⟩ [(1, "A")]).2.2.1 (by decide) (by decide)
  · exact (handle_msg_identity_test (fun _ => PyValue.pyStr "")
      ⟨"x", 1, "A"⟩ [(1, "A")]).2.2.1 (by decide) (by decide)

/-- Rendering one draw of `randint(0, 9)` with `str` gives a single
ASCII digit character. -/
theorem digit_toString : ∀ d : Fin 10,
    (toString d.val).length = 1 ∧
      ∀ c ∈ (toString d.val).toList, c.isDigit := by decide

/-- Flattening a list of single-digit strings gives one character per
string, all digits. -/
theorem flatten_digit_strings (l : List String)
    (h : ∀ s ∈ l, s.length = 1 ∧ ∀ c ∈ s.toList, c.isDigit) :
    (l.map String.data).flatten.length = l.length ∧
      ∀ c ∈ (l.map String.data).flatten, c.isDigit := by
  induction l with
  | nil => simp
  | cons hd tl ih =>
      have hhd := h hd (List.mem_cons_self hd tl)
      have htl := ih (fun s hs => h s (List.mem_cons_of_mem hd hs))
      constructor
      · have h1 : hd.data.length = 1 := hhd.1
        simp [List.flatten_cons, h1, htl.1]
        omega
      · intro c hc
        simp only [List.map_cons, List.flatten_cons,
          List.mem_append] at hc
        rcases hc with hc | hc
        · exact hhd.2 c hc
        · exact htl.2 c hc

/-- C8: for any eight draws of `randint(0, 9)`, the password the
registration flow builds is exactly 8 characters long and every
character is an ASCII digit. -/
theorem register_password_eight_digits (draws : Fin 8 → Fin 10) :
    (register_password draws).length = 8 ∧
      ∀ c ∈ (register_password draws).toList, c.isDigit := by
  have h := flatten_digit_strings
    ((List.finRange 8).map (fun i => toString (draws i).val))
    (by
      intro s hs
      rcases List.mem_map.mp hs with ⟨i, _, rfl⟩
      exact digit_toString (draws i))
  unfold register_password
  rw [String.join_eq]
  constructor
  · have h8 : (((List.finRange 8).map
        (fun i => toString (draws i).val)).map
          String.data).flatten.length = 8 := by
      rw [h.1]; simp
    simpa [String.length] using h8
  · intro c hc
    exact h.2 c (by simpa [String.toList] using hc)

/-- C8 witness: with all eight draws equal to 3 the password is
"33333333" — 8 characters, and its first character is a digit. -/
theorem register_password_eight_digits_witness :
    (register_password (fun _ => (3 : Fin 10))).length = 8 ∧
    ('3' ∈ (register_password (fun _ => (3 : Fin 10))).toList ∧
      Char.isDigit '3') := by
  refine ⟨(register_password_eight_digits (fun _ => (3 : Fin 10))).1,
    by decide,
    (register_password_eight_digits (fun _ => (3 : Fin 10))).2 '3'
      (by decide)⟩

end TelegramBot
